import Mathlib

/-!
Verification of the signal-scoring and portfolio-valuation pipeline of the
crypto-signal dashboard repository.

The JavaScript sources are embedded shallowly:
* floating-point numbers become `ℚ` (and `ℝ` only where the code takes a
  square root);
* the string-valued categorical fields (`trend`, `volatility`, …) become
  inductive types, with boolean helpers mirroring the `String.includes`
  tests the code performs on them;
* `Math.random()`-derived quantities (the confidence noise term, the
  fallback signal type) become explicit parameters, so every theorem
  quantifies over them;
* Mongoose documents become structures, collections become lists, and the
  route handlers become functions from the old state to the new state,
  returning `Option`/`Except` where the handler can respond with an error.

Fields of the JavaScript objects that no claim touches and that are either
display-only or filled from `Math.random()` (e.g. `technicalAnalysis`,
`aiMetrics`, `gasEstimate`, `slippage`, the `signalId` timestamp string)
are omitted from the structures; every field a theorem mentions is
modelled from the source.
-/

namespace CryptoPipeline

/-- JavaScript `Math.round`: rounds half-way cases toward `+∞`,
i.e. `Math.round x = ⌊x + 0.5⌋`. -/
def jround (x : ℚ) : ℤ := ⌊x + 1/2⌋

/-- Market-trend categories returned by `AIService.determineTrend`
(the JS code stores them as the strings `strong_bullish`, `bullish`,
`sideways`, `bearish`, `strong_bearish`). -/
inductive Trend
  | strong_bullish | bullish | sideways | bearish | strong_bearish
deriving DecidableEq, Repr

/-- Mirrors `trend.includes('strong')` on the five trend strings. -/
def Trend.hasStrong : Trend → Bool
  | .strong_bullish => true
  | .strong_bearish => true
  | _ => false

/-- Mirrors `trend.includes('bullish')` on the five trend strings
(`"strong_bullish"` contains `"bullish"`). -/
def Trend.hasBullish : Trend → Bool
  | .strong_bullish => true
  | .bullish => true
  | _ => false

/-- Mirrors `trend.includes('bearish')` on the five trend strings
(`"strong_bearish"` contains `"bearish"`). -/
def Trend.hasBearish : Trend → Bool
  | .strong_bearish => true
  | .bearish => true
  | _ => false

/-- Volatility categories returned by `AIService.calculateVolatility`. -/
inductive Volatility
  | low | medium | high
deriving DecidableEq, Repr

/-- Momentum categories returned by `AIService.calculateMomentum`. -/
inductive Momentum
  | weak | moderate | strong
deriving DecidableEq, Repr

/-- Liquidity categories returned by `AIService.getLiquidity`. -/
inductive Liquidity
  | low | medium | high
deriving DecidableEq, Repr

/-- The four signal types of `AIService.signalTypes`. -/
inductive SignalType
  | quick | spot | hodl | degen
deriving DecidableEq, Repr

/-- Signal actions returned by `AIService.determineAction`. -/
inductive Action
  | buy | sell | hold
deriving DecidableEq, Repr

/-- Signal lifecycle statuses (the `status` enum of `signalSchema`). -/
inductive SignalStatus
  | active | executed | expired | cancelled
deriving DecidableEq, Repr

/-- The numeric fields of one CoinGecko market row that the scoring
pipeline reads (`current_price`, `market_cap`, `total_volume`,
`price_change_percentage_24h`, `price_change_percentage_7d_in_currency`).
The JS code defaults each field with `|| 0` (resp. `|| 1` for
`market_cap`); a numeric `0` is falsy in JS, so `market_cap || 1`
replaces a zero market cap by `1`, which the definitions below mirror. -/
structure MarketData where
  current_price : ℚ
  market_cap : ℚ
  total_volume : ℚ
  price_change_percentage_24h : ℚ
  price_change_percentage_7d_in_currency : ℚ
deriving DecidableEq, Repr

/-- Ratio `volume / marketCap` as the JS computes it: both
`AIService.calculateMomentum`, `AIService.calculateConfidence` and
`AIService.getLiquidity` write
`(marketData.total_volume || 0) / (marketData.market_cap || 1)`,
so a zero market cap is replaced by `1`, never divided by. -/
def volumeRatio (md : MarketData) : ℚ :=
  md.total_volume / (if md.market_cap = 0 then 1 else md.market_cap)

/-- Embeds `AIService.determineTrend`. -/
def determineTrend (md : MarketData) : Trend :=
  let pct24h := md.price_change_percentage_24h
  let pct7d := md.price_change_percentage_7d_in_currency
  if pct24h > 5 ∧ pct7d > 10 then .strong_bullish
  else if pct24h > 2 ∧ pct7d > 5 then .bullish
  else if pct24h < -5 ∧ pct7d < -10 then .strong_bearish
  else if pct24h < -2 ∧ pct7d < -5 then .bearish
  else .sideways

/-- Embeds `AIService.calculateVolatility`. -/
def calculateVolatility (md : MarketData) : Volatility :=
  let a := |md.price_change_percentage_24h|
  if a > 10 then .high else if a > 5 then .medium else .low

/-- Embeds `AIService.calculateMomentum`. -/
def calculateMomentum (md : MarketData) : Momentum :=
  let pct24h := md.price_change_percentage_24h
  if pct24h > 3 ∧ volumeRatio md > 1/10 then .strong
  else if pct24h > 1 ∧ volumeRatio md > 1/20 then .moderate
  else .weak

/-- Embeds `AIService.getLiquidity`. -/
def getLiquidity (md : MarketData) : Liquidity :=
  if volumeRatio md > 1/10 then .high
  else if volumeRatio md > 1/20 then .medium
  else .low

/-- The categorical part of the object built by
`AIService.analyzeMarketData`; the remaining fields (`support`,
`resistance`, `rsi`, `macd`) are display-only and read by no claim. -/
structure Analysis where
  trend : Trend
  volatility : Volatility
  momentum : Momentum
deriving DecidableEq, Repr

/-- Embeds `AIService.analyzeMarketData`, restricted to the fields the scorer
reads. -/
def analyzeMarketData (md : MarketData) : Analysis :=
  { trend := determineTrend md
    volatility := calculateVolatility md
    momentum := calculateMomentum md }

/-- Embeds `AIService.selectSignalType`; the final
`signalTypes[Math.floor(Math.random()*4)]` draw is the explicit
`fallback` parameter. -/
def selectSignalType (fallback : SignalType) (a : Analysis) : SignalType :=
  if a.volatility = .high ∧ a.momentum = .strong then .degen
  else if a.trend.hasBullish ∧ a.volatility = .medium then .quick
  else if a.trend = .sideways ∧ a.momentum = .moderate then .spot
  else if a.trend.hasBullish ∧ a.volatility = .low then .hodl
  else fallback

/-- Embeds `AIService.calculateConfidence`; the `(Math.random() - 0.5) * 20`
noise term is the explicit `noise` parameter (it ranges over `[-10, 10]`).
Base 75; +15 for a "strong" trend else +10 for bullish/bearish; +10 for
strong momentum else +5 for moderate; +10 for volumeRatio > 0.1 else +5
for > 0.05; then `Math.max(60, Math.min(95, Math.round(·)))`. -/
def calculateConfidence (a : Analysis) (md : MarketData) (noise : ℚ) : ℤ :=
  let c0 : ℚ := 75
  let c1 := c0 + (if a.trend.hasStrong then 15
                  else if a.trend.hasBullish ∨ a.trend.hasBearish then 10
                  else 0)
  let c2 := c1 + (if a.momentum = .strong then 10
                  else if a.momentum = .moderate then 5
                  else 0)
  let c3 := c2 + (if volumeRatio md > 1/10 then 10
                  else if volumeRatio md > 1/20 then 5
                  else 0)
  max 60 (min 95 (jround (c3 + noise)))

/-- Embeds `AIService.determineAction`. -/
def determineAction (a : Analysis) (confidence : ℤ) : Action :=
  if a.trend.hasBullish ∧ confidence > 70 then .buy
  else if a.trend.hasBearish ∧ confidence > 70 then .sell
  else .hold

/-- The `baseROI` table of `AIService.calculateExpectedROI`. -/
def baseROI : SignalType → ℤ × ℤ
  | .quick => (5, 25)
  | .spot => (2, 8)
  | .hodl => (50, 200)
  | .degen => (20, 50)

/-- Embeds `AIService.calculateExpectedROI`:
`{min, max} = Math.round(base.{min, max} * confidence / 100)`. -/
def calculateExpectedROI (t : SignalType) (confidence : ℤ) : ℤ × ℤ :=
  let m : ℚ := (confidence : ℚ) / 100
  (jround ((baseROI t).1 * m), jround ((baseROI t).2 * m))

/-- The deterministic scoring fields of the signal object built by
`AIService.generateSignal` (the omitted fields — `signalId`,
`technicalAnalysis`, `marketConditions`, `aiMetrics`, the `execution`
block, `expiresAt` — are filled after the suppression check and are read
by no claim about this function). -/
structure ScoredSignal where
  type : SignalType
  action : Action
  confidence : ℤ
  expectedROI : ℤ × ℤ
  status : SignalStatus
deriving DecidableEq, Repr

/-- Embeds `AIService.generateSignal`: computes the type, the confidence and the
action, returns `null` when the confidence is below 60, and only
otherwise builds the signal object (with `status: 'active'`). -/
def generateSignal (md : MarketData) (a : Analysis)
    (noise : ℚ) (fallback : SignalType) : Option ScoredSignal :=
  let signalType := selectSignalType fallback a
  let confidence := calculateConfidence a md noise
  let action := determineAction a confidence
  if confidence < 60 then none
  else some
    { type := signalType
      action := action
      confidence := confidence
      expectedROI := calculateExpectedROI signalType confidence
      status := .active }

/-- Position side (the `side` enum of the `positions` subdocument of
`portfolioSchema`). -/
inductive Side
  | long | short
deriving DecidableEq, Repr

/-- One entry of `Portfolio.positions`. `id` stands for the Mongoose
subdocument `_id` used by `positions.id(...)` / `positions.pull(...)`;
`symbol` is `asset.symbol`. The fields `asset.name`, `stopLoss`,
`takeProfit`, `openedAt` and `signalId` are read by no claim and are
omitted. -/
structure Position where
  id : ℕ
  symbol : String
  type : SignalType
  side : Side
  size : ℚ
  entryPrice : ℚ
  currentPrice : ℚ
  value : ℚ
  invested : ℚ
  unrealizedPnL : ℚ
  leverage : ℚ
deriving DecidableEq, Repr

/-- The `allocation` map of `portfolioSchema`. -/
structure Allocation where
  quick : ℚ
  spot : ℚ
  hodl : ℚ
  degen : ℚ
deriving DecidableEq, Repr

/-- The `exposure` map of `portfolioSchema`. -/
structure Exposure where
  btc : ℚ
  eth : ℚ
  sol : ℚ
  other : ℚ
deriving DecidableEq, Repr

def Allocation.zero : Allocation := ⟨0, 0, 0, 0⟩

def Exposure.zero : Exposure := ⟨0, 0, 0, 0⟩

/-- Step `allocation[position.type] += percentage` on the `allocation` map. -/
def Allocation.add (a : Allocation) (t : SignalType) (pct : ℚ) : Allocation :=
  match t with
  | .quick => { a with quick := a.quick + pct }
  | .spot => { a with spot := a.spot + pct }
  | .hodl => { a with hodl := a.hodl + pct }
  | .degen => { a with degen := a.degen + pct }

/-- The `if/else if` chain over `position.asset.symbol.toLowerCase()`
used by both exposure computations. -/
def Exposure.add (e : Exposure) (symbol : String) (pct : ℚ) : Exposure :=
  let s := symbol.toLower
  if s = "btc" then { e with btc := e.btc + pct }
  else if s = "eth" then { e with eth := e.eth + pct }
  else if s = "sol" then { e with sol := e.sol + pct }
  else { e with other := e.other + pct }

/-- Embeds `PortfolioService.calculateAllocation` (the free-function variant):
returns the all-zero map when `totalValue === 0`, otherwise accumulates
`(position.value / totalValue) * 100` per signal type. -/
def serviceCalculateAllocation (positions : List Position) (totalValue : ℚ) :
    Allocation :=
  if totalValue = 0 then Allocation.zero
  else positions.foldl
    (fun acc p => acc.add p.type (p.value / totalValue * 100)) Allocation.zero

/-- Embeds `PortfolioService.calculateExposure` (the free-function variant). -/
def serviceCalculateExposure (positions : List Position) (totalValue : ℚ) :
    Exposure :=
  if totalValue = 0 then Exposure.zero
  else positions.foldl
    (fun acc p => acc.add p.symbol (p.value / totalValue * 100)) Exposure.zero

/-- The persisted `Portfolio` document (the fields the claims touch). -/
structure Portfolio where
  totalValue : ℚ
  totalInvested : ℚ
  unrealizedPnL : ℚ
  realizedPnL : ℚ
  totalPnL : ℚ
  positions : List Position
  allocation : Allocation
  exposure : Exposure
deriving DecidableEq, Repr

/-- Sum of `position.value` over a positions list (the
`reduce((sum, pos) => sum + pos.value, 0)` of the model methods). -/
def totalPositionsValue (positions : List Position) : ℚ :=
  (positions.map (·.value)).sum

/-- Sum of `position.unrealizedPnL` over a positions list. -/
def totalPositionsUPnL (positions : List Position) : ℚ :=
  (positions.map (·.unrealizedPnL)).sum

/-- Embeds `portfolioSchema.methods.calculateAllocation` (the Mongoose method
variant): when the positions' total value is `0` it returns early
WITHOUT touching `this.allocation`; otherwise it overwrites
`this.allocation` with the freshly accumulated map. -/
def methodCalculateAllocation (p : Portfolio) : Portfolio :=
  let total := totalPositionsValue p.positions
  if total = 0 then p
  else
    let alloc := p.positions.foldl
      (fun acc pos => acc.add pos.type (pos.value / total * 100))
      Allocation.zero
    { p with allocation := alloc }

/-- Embeds `portfolioSchema.methods.calculateExposure` (the Mongoose method
variant), with the same early return on zero total. -/
def methodCalculateExposure (p : Portfolio) : Portfolio :=
  let total := totalPositionsValue p.positions
  if total = 0 then p
  else
    let expo := p.positions.foldl
      (fun acc pos => acc.add pos.symbol (pos.value / total * 100))
      Exposure.zero
    { p with exposure := expo }

/-- The per-position body of `PortfolioService.updatePortfolioValue`:
`currentPrice = currentPrices[symbol] || position.currentPrice` (a price
of `0` is falsy in JS and also falls back), then
`value = size * currentPrice` and
`unrealizedPnL = (currentPrice - entryPrice) * size * leverage`
— with no branch on `position.side`. -/
def updatePosition (prices : String → Option ℚ) (p : Position) : Position :=
  let cp := match prices p.symbol.toLower with
    | some q => if q = 0 then p.currentPrice else q
    | none => p.currentPrice
  { p with
    currentPrice := cp
    value := p.size * cp
    unrealizedPnL := (cp - p.entryPrice) * p.size * p.leverage }

/-- Embeds `PortfolioService.updatePortfolioValue`: returns the portfolio
unchanged when it has no positions; otherwise refreshes every position,
sums `totalValue` and `unrealizedPnL`, sets
`totalPnL = realizedPnL + unrealizedPnL`, and calls the two Mongoose
method recomputations. -/
def updatePortfolioValue (p : Portfolio) (prices : String → Option ℚ) :
    Portfolio :=
  if p.positions = [] then p
  else
    let positions := p.positions.map (updatePosition prices)
    let totalValue := totalPositionsValue positions
    let totalUnrealizedPnL := totalPositionsUPnL positions
    methodCalculateExposure (methodCalculateAllocation
      { p with
        positions := positions
        totalValue := totalValue
        unrealizedPnL := totalUnrealizedPnL
        totalPnL := p.realizedPnL + totalUnrealizedPnL })

/-- The `DELETE /positions/:positionId` handler of
`src/server/routes/portfolio.js`: looks the position up by id (404 →
`none`), adds its `unrealizedPnL` to `realizedPnL`, sets
`totalPnL = realizedPnL + portfolio.unrealizedPnL` (the stored aggregate,
which the handler does not update), pulls the position, and calls the
two Mongoose method recomputations. -/
def closePosition (p : Portfolio) (positionId : ℕ) : Option Portfolio :=
  match p.positions.find? (·.id = positionId) with
  | none => none
  | some pos =>
    let realized := p.realizedPnL + pos.unrealizedPnL
    let totalPnL := realized + p.unrealizedPnL
    let positions := p.positions.filter (¬ ·.id = positionId)
    some (methodCalculateExposure (methodCalculateAllocation
      { p with
        realizedPnL := realized
        totalPnL := totalPnL
        positions := positions }))

/-- One persisted signal document, as the lifecycle routes see it
(`signalId`, `status`, `expiresAt` as a timestamp in milliseconds;
the scoring payload is irrelevant to the lifecycle claims). -/
structure StoredSignal where
  signalId : String
  status : SignalStatus
  expiresAt : ℤ
deriving DecidableEq, Repr

/-- Lookup of one signal by `signalId`, what `TradingSignal.findOne` does over a list store. -/
def getSignal (store : List StoredSignal) (id : String) :
    Option StoredSignal :=
  store.find? (·.signalId = id)

/-- Updates the first document matching `id` (what
`findOneAndUpdate({signalId: id}, ...)` does on a store whose ids need
not be unique). -/
def updateFirst (store : List StoredSignal) (id : String)
    (f : StoredSignal → StoredSignal) : List StoredSignal :=
  match store with
  | [] => []
  | s :: rest =>
    if s.signalId = id then f s :: rest
    else s :: updateFirst rest id f

/-- The `PUT /:id/status` handler of the signals router: after checking
that the requested status is one of the four enum values (any
`SignalStatus` here), it calls
`findOneAndUpdate({signalId: id}, {status, updatedAt}, {new: true})` —
unconditionally, with NO check of the signal's current status — and
404s only when no document matches. Returns the updated document and
the new store. -/
def updateSignalStatus (store : List StoredSignal) (id : String)
    (target : SignalStatus) :
    Except String (StoredSignal × List StoredSignal) :=
  match getSignal store id with
  | none => .error "Signal not found"
  | some s =>
    .ok ({ s with status := target },
         updateFirst store id (fun t => { t with status := target }))

/-- The MongoDB TTL monitor induced by
`signalSchema.index({ expiresAt: 1 }, { expireAfterSeconds: 0 })` in the
signal model: MongoDB's documented behaviour for such an index is to
DELETE every document whose `expiresAt` lies in the past. -/
def ttlSweep (now : ℤ) (store : List StoredSignal) : List StoredSignal :=
  store.filter (fun s => ¬ s.expiresAt < now)

/-- Trade statuses (the `status` enum of `tradeSchema`); the schema's
`'partial'` value is spelled `partialFill` here because `partial` is a
reserved word in Lean. -/
inductive TradeStatus
  | pending | filled | partialFill | cancelled | rejected
deriving DecidableEq, Repr

/-- Trade side (the `side` enum of `tradeSchema`: `buy`/`sell`). -/
inductive TradeSide
  | buy | sell
deriving DecidableEq, Repr

/-- The fields of a `Trade` document read or written by the
`POST /:id/execute` handler. -/
structure Trade where
  side : TradeSide
  size : ℚ
  price : ℚ
  leverage : ℚ
  status : TradeStatus
  avgPrice : ℚ
  filledSize : ℚ
  filledValue : ℚ
  pnlRealized : ℚ
  pnlUnrealized : ℚ
  pnlTotal : ℚ
  returnPercent : ℚ
deriving DecidableEq, Repr

/-- The `POST /:id/execute` handler of the trades router: rejects a
non-`pending` trade ("Trade is not pending"), otherwise sets the trade
`filled` with `avgPrice = executedPrice || trade.price` (a passed `0` is
falsy and falls back), `priceChange = avgPrice - trade.price`,
`pnl.unrealized = priceChange * size * leverage`,
`pnl.total = pnl.realized + pnl.unrealized`,
`performance.returnPercent = priceChange / price * 100` —
with no branch on `trade.side`. -/
def executeTrade (t : Trade) (executedPrice : Option ℚ) : Option Trade :=
  if t.status ≠ .pending then none
  else
    let avgPrice := match executedPrice with
      | some q => if q = 0 then t.price else q
      | none => t.price
    let priceChange := avgPrice - t.price
    some { t with
      status := .filled
      filledSize := t.size
      avgPrice := avgPrice
      filledValue := t.size * avgPrice
      pnlUnrealized := priceChange * t.size * t.leverage
      pnlTotal := t.pnlRealized + priceChange * t.size * t.leverage
      returnPercent := priceChange / t.price * 100 }

/-- Mean of a list of returns (`reduce((s, r) => s + r, 0) / length`). -/
def meanReturn (returns : List ℚ) : ℚ :=
  returns.sum / returns.length

/-- Population variance of a list of returns
(`reduce((s, r) => s + (r - avg)^2, 0) / length`). -/
def varianceReturn (returns : List ℚ) : ℚ :=
  ((returns.map (fun r => (r - meanReturn returns) ^ 2)).sum) /
    returns.length

/-- Population standard deviation of the returns, `Math.sqrt(variance)`. -/
noncomputable def stdDevReturn (returns : List ℚ) : ℝ :=
  Real.sqrt (varianceReturn returns)

/-- Embeds `PortfolioService.calculateSharpeRatio`: `0` on an empty list; mean
and population standard deviation of the per-trade `returnPercent`;
`0` when the standard deviation is `0`; otherwise
`(mean * 365 - riskFreeRate * 100) / (stdDev * √365)` with
`riskFreeRate = 0.02`. -/
noncomputable def calculateSharpeRatio (returns : List ℚ) : ℝ :=
  if returns.length = 0 then 0
  else
    let stdDev := stdDevReturn returns
    if stdDev = 0 then 0
    else ((meanReturn returns : ℝ) * 365 - 0.02 * 100) /
      (stdDev * Real.sqrt 365)

/-- The BTC market snapshot of the end-to-end example of the spec. -/
def btcMD : MarketData :=
  { current_price := 50000
    market_cap := 1000000000000
    total_volume := 150000000000
    price_change_percentage_24h := 6
    price_change_percentage_7d_in_currency := 12 }

/-- A snapshot with a zero market cap and a 24h volume of `1`. -/
def md0 : MarketData :=
  { current_price := 1
    market_cap := 0
    total_volume := 1
    price_change_percentage_24h := 6
    price_change_percentage_7d_in_currency := 0 }

/-- A long BTC position with `10` of unrealized PnL. -/
def pos1 : Position :=
  { id := 1, symbol := "BTC", type := .quick, side := .long, size := 1
    entryPrice := 100, currentPrice := 110, value := 110, invested := 100
    unrealizedPnL := 10, leverage := 1 }

/-- A portfolio holding exactly `pos1`, with consistent stored
aggregates (`totalPnL = realizedPnL + unrealizedPnL = 10`). -/
def pf1 : Portfolio :=
  { totalValue := 110, totalInvested := 100, unrealizedPnL := 10
    realizedPnL := 0, totalPnL := 10, positions := [pos1]
    allocation := ⟨100, 0, 0, 0⟩, exposure := ⟨100, 0, 0, 0⟩ }

/-- A short BTC position opened at `100`, currently quoted at `100`. -/
def shortPos : Position :=
  { pos1 with
    side := .short
    currentPrice := 100
    value := 100
    unrealizedPnL := 0 }

/-- The portfolio holding only the short position. -/
def pfShort : Portfolio :=
  { pf1 with positions := [shortPos], unrealizedPnL := 0, totalPnL := 0 }

/-- A price map quoting every symbol at `110`. -/
def prices1 : String → Option ℚ :=
  fun _ => some 110

/-- A portfolio with no positions but a stale, non-zero allocation map. -/
def pfStale : Portfolio :=
  { pf1 with positions := [], allocation := ⟨50, 0, 0, 0⟩ }

/-- A stored signal already in the terminal status `executed`. -/
def sig1 : StoredSignal :=
  { signalId := "S1", status := .executed, expiresAt := 100 }

/-- An active stored signal that expires at time `5`. -/
def sigA : StoredSignal :=
  { signalId := "S1", status := .active, expiresAt := 5 }

/-- An active stored signal that expires at time `20`. -/
def sigB : StoredSignal :=
  { signalId := "S2", status := .active, expiresAt := 20 }

/-- A pending sell trade of size `2` requested at price `100`. -/
def sellTrade : Trade :=
  { side := .sell, size := 2, price := 100, leverage := 1
    status := .pending, avgPrice := 0, filledSize := 0, filledValue := 0
    pnlRealized := 0, pnlUnrealized := 0, pnlTotal := 0, returnPercent := 0 }

/-- C1: `AIService.generateSignal` returns `null` exactly when the
computed confidence is below 60, and the check precedes the construction
of the signal object, so every signal it does return carries the
computed confidence, which is at least 60. -/
theorem C1_generateSignal_none_iff_confidence_lt_60
    (md : MarketData) (a : Analysis) (noise : ℚ) (fallback : SignalType) :
    (generateSignal md a noise fallback = none ↔
      calculateConfidence a md noise < 60) ∧
    ∀ s, generateSignal md a noise fallback = some s →
      s.confidence = calculateConfidence a md noise ∧ 60 ≤ s.confidence := by
  by_cases h : calculateConfidence a md noise < 60
  · refine ⟨by simp [generateSignal, h], ?_⟩
    intro s hs
    simp [generateSignal, h] at hs
  · refine ⟨by simp [generateSignal, h], ?_⟩
    intro s hs
    simp only [generateSignal, if_neg h, Option.some.injEq] at hs
    subst hs
    refine ⟨rfl, ?_⟩
    show 60 ≤ calculateConfidence a md noise
    omega

/-- Instantiation of the C1 theorem at the BTC example snapshot. -/
theorem C1_generateSignal_none_iff_confidence_lt_60_witness :
    (generateSignal btcMD (analyzeMarketData btcMD) 0 .degen = none ↔
      calculateConfidence (analyzeMarketData btcMD) btcMD 0 < 60) :=
  (C1_generateSignal_none_iff_confidence_lt_60 btcMD
    (analyzeMarketData btcMD) 0 .degen).1

/-- C6 fails on the code: with `marketCap = 0` the JS replaces the
market cap by `1` (not the volume ratio by `0`), so this snapshot with
`volume24h = 1` gets momentum `strong` (not `weak`) and liquidity `high`
(not `low`). -/
theorem C6_zero_marketCap_counterexample :
    md0.market_cap = 0 ∧
    calculateMomentum md0 = .strong ∧
    calculateMomentum md0 ≠ .weak ∧
    getLiquidity md0 = .high ∧
    volumeRatio md0 = 1 := by
  have hv : volumeRatio md0 = 1 := by norm_num [volumeRatio, md0]
  have hp : md0.price_change_percentage_24h = 6 := rfl
  refine ⟨rfl, ?_, ?_, ?_, hv⟩
  · norm_num [calculateMomentum, hv, hp]
  · norm_num [calculateMomentum, hv, hp]
    decide
  · norm_num [getLiquidity, hv]

/-- C6 amended: with `marketCap = 0` no division by zero occurs because
the code substitutes `1` for the market cap, so the volume ratio equals
`volume24h` and momentum, liquidity and the confidence volume bonus are
computed from that ratio. -/
theorem C6_zero_marketCap_treated_as_one
    (md : MarketData) (a : Analysis) (noise : ℚ)
    (h : md.market_cap = 0) :
    volumeRatio md = md.total_volume ∧
    calculateMomentum md = calculateMomentum { md with market_cap := 1 } ∧
    getLiquidity md = getLiquidity { md with market_cap := 1 } ∧
    calculateConfidence a md noise =
      calculateConfidence a { md with market_cap := 1 } noise := by
  have hv : volumeRatio md = md.total_volume := by
    simp [volumeRatio, h]
  have hv1 : volumeRatio { md with market_cap := 1 } = md.total_volume := by
    simp [volumeRatio]
  refine ⟨hv, ?_, ?_, ?_⟩
  · simp [calculateMomentum, hv, hv1]
  · simp [getLiquidity, hv, hv1]
  · simp [calculateConfidence, hv, hv1]

/-- Instantiation of the amended C6 theorem at the zero-market-cap
snapshot. -/
theorem C6_zero_marketCap_treated_as_one_witness :
    volumeRatio md0 = md0.total_volume ∧
    calculateMomentum md0 = calculateMomentum { md0 with market_cap := 1 } ∧
    getLiquidity md0 = getLiquidity { md0 with market_cap := 1 } ∧
    calculateConfidence ⟨.sideways, .low, .weak⟩ md0 0 =
      calculateConfidence ⟨.sideways, .low, .weak⟩
        { md0 with market_cap := 1 } 0 :=
  C6_zero_marketCap_treated_as_one md0 ⟨.sideways, .low, .weak⟩ 0 rfl

/-- C7: on the BTC example snapshot the pipeline yields trend
`strong_bullish`, volatility `medium`, momentum `strong`, signal type
`quick` (for every random fallback), confidence `95` for every noise
value in `[-10, 10]`, action `buy`, and an expected-ROI maximum of
`round(25 * confidence / 100) = 24`. -/
theorem C7_btc_end_to_end (noise : ℚ) (fallback : SignalType)
    (h1 : -10 ≤ noise) (h2 : noise ≤ 10) :
    determineTrend btcMD = .strong_bullish ∧
    calculateVolatility btcMD = .medium ∧
    calculateMomentum btcMD = .strong ∧
    selectSignalType fallback (analyzeMarketData btcMD) = .quick ∧
    calculateConfidence (analyzeMarketData btcMD) btcMD noise = 95 ∧
    determineAction (analyzeMarketData btcMD)
      (calculateConfidence (analyzeMarketData btcMD) btcMD noise) = .buy ∧
    (calculateExpectedROI .quick
      (calculateConfidence (analyzeMarketData btcMD) btcMD noise)).2 =
      jround (25 * (95 : ℚ) / 100) ∧
    jround (25 * (95 : ℚ) / 100) = 24 := by
  have hvr : volumeRatio btcMD = 3 / 20 := by norm_num [volumeRatio, btcMD]
  have htrend : determineTrend btcMD = .strong_bullish := by
    norm_num [determineTrend, btcMD]
  have hvol : calculateVolatility btcMD = .medium := by
    norm_num [calculateVolatility, btcMD]
  have hmom : calculateMomentum btcMD = .strong := by
    have hp : btcMD.price_change_percentage_24h = 6 := rfl
    norm_num [calculateMomentum, hvr, hp]
  have hana : analyzeMarketData btcMD = ⟨.strong_bullish, .medium, .strong⟩ := by
    rw [analyzeMarketData, htrend, hvol, hmom]
  have hconf : calculateConfidence (analyzeMarketData btcMD) btcMD noise = 95 := by
    rw [hana]
    have h95 : (95 : ℤ) ≤ jround (110 + noise) := by
      rw [jround, Int.le_floor]
      push_cast
      linarith
    simp only [calculateConfidence, Trend.hasStrong, hvr]
    norm_num [jround] at h95 ⊢
    omega
  have hroi : jround (25 * (95 : ℚ) / 100) = 24 := by norm_num [jround]
  refine ⟨htrend, hvol, hmom, ?_, hconf, ?_, ?_, hroi⟩
  · rw [hana]
    simp [selectSignalType, Trend.hasBullish]
  · rw [hconf, hana]
    norm_num [determineAction, Trend.hasBullish]
  · rw [hconf, hroi]
    norm_num [calculateExpectedROI, baseROI, jround]

/-- Instantiation of the C7 theorem at noise `0` and fallback `degen`. -/
theorem C7_btc_end_to_end_witness :
    determineTrend btcMD = .strong_bullish ∧
    calculateVolatility btcMD = .medium ∧
    calculateMomentum btcMD = .strong ∧
    selectSignalType .degen (analyzeMarketData btcMD) = .quick ∧
    calculateConfidence (analyzeMarketData btcMD) btcMD 0 = 95 ∧
    determineAction (analyzeMarketData btcMD)
      (calculateConfidence (analyzeMarketData btcMD) btcMD 0) = .buy ∧
    (calculateExpectedROI .quick
      (calculateConfidence (analyzeMarketData btcMD) btcMD 0)).2 =
      jround (25 * (95 : ℚ) / 100) ∧
    jround (25 * (95 : ℚ) / 100) = 24 :=
  C7_btc_end_to_end 0 .degen (by decide) (by decide)

/-- The Mongoose allocation method only ever writes the `allocation`
field. -/
theorem methodCalculateAllocation_fields (p : Portfolio) :
    (methodCalculateAllocation p).realizedPnL = p.realizedPnL ∧
    (methodCalculateAllocation p).unrealizedPnL = p.unrealizedPnL ∧
    (methodCalculateAllocation p).totalPnL = p.totalPnL ∧
    (methodCalculateAllocation p).positions = p.positions ∧
    (methodCalculateAllocation p).totalValue = p.totalValue ∧
    (methodCalculateAllocation p).exposure = p.exposure := by
  simp only [methodCalculateAllocation]
  split <;> exact ⟨rfl, rfl, rfl, rfl, rfl, rfl⟩

/-- The Mongoose exposure method only ever writes the `exposure`
field. -/
theorem methodCalculateExposure_fields (p : Portfolio) :
    (methodCalculateExposure p).realizedPnL = p.realizedPnL ∧
    (methodCalculateExposure p).unrealizedPnL = p.unrealizedPnL ∧
    (methodCalculateExposure p).totalPnL = p.totalPnL ∧
    (methodCalculateExposure p).positions = p.positions ∧
    (methodCalculateExposure p).totalValue = p.totalValue ∧
    (methodCalculateExposure p).allocation = p.allocation := by
  simp only [methodCalculateExposure]
  split <;> exact ⟨rfl, rfl, rfl, rfl, rfl, rfl⟩

/-- Splitting the summed unrealized PnL of a positions list along a
position-id predicate. -/
theorem totalPositionsUPnL_filter_split (l : List Position) (pid : ℕ) :
    totalPositionsUPnL l =
      totalPositionsUPnL (l.filter (·.id = pid)) +
      totalPositionsUPnL (l.filter (¬ ·.id = pid)) := by
  induction l with
  | nil => simp [totalPositionsUPnL]
  | cons x xs ih =>
    by_cases h : x.id = pid <;>
      simp [totalPositionsUPnL, List.filter_cons, h] at ih ⊢ <;>
      linarith

/-- C2 fails on the code: closing the only position of a consistent
portfolio (`totalPnL = realizedPnL + unrealizedPnL = 10`) leaves the
stored aggregate `unrealizedPnL` untouched, so the handler stores
`totalPnL = 20`, not the unchanged `10` the claim requires. -/
theorem C2_close_counterexample :
    pf1.totalPnL = 10 ∧
    pf1.totalPnL = pf1.realizedPnL + pf1.unrealizedPnL ∧
    (closePosition pf1 1).map (·.totalPnL) = some 20 ∧
    (20 : ℚ) ≠ 10 := by
  refine ⟨rfl, by norm_num [pf1], ?_, by norm_num⟩
  have hfind : pf1.positions.find? (·.id = 1) = some pos1 := rfl
  simp only [closePosition, hfind]
  have h1 := methodCalculateExposure_fields
    (methodCalculateAllocation
      { pf1 with
        realizedPnL := pf1.realizedPnL + pos1.unrealizedPnL
        totalPnL := pf1.realizedPnL + pos1.unrealizedPnL + pf1.unrealizedPnL
        positions := pf1.positions.filter (¬ ·.id = 1) })
  have h2 := methodCalculateAllocation_fields
    { pf1 with
      realizedPnL := pf1.realizedPnL + pos1.unrealizedPnL
      totalPnL := pf1.realizedPnL + pos1.unrealizedPnL + pf1.unrealizedPnL
      positions := pf1.positions.filter (¬ ·.id = 1) }
  simp only [Option.map_some']
  rw [h1.2.2.1, h2.2.2.1]
  norm_num [pf1, pos1]

/-- C2 amended: when the position exists (and its id is unique in the
list), closing it adds exactly its `unrealizedPnL` to `realizedPnL` and
removes it from `positions`; but the stored aggregate `unrealizedPnL` is
not updated, so the stored `totalPnL` becomes
`realizedPnL + pos.unrealizedPnL + unrealizedPnL` (it grows by the
closed position's `unrealizedPnL` on a consistent portfolio); the
recomputed total `realizedPnL + Σ unrealizedPnL(positions)` is the
quantity the close operation leaves unchanged. -/
theorem C2_close_moves_unrealized_into_realized
    (p : Portfolio) (pid : ℕ) (pos : Position)
    (hfind : p.positions.find? (·.id = pid) = some pos)
    (huniq : p.positions.filter (·.id = pid) = [pos]) :
    (closePosition p pid).map (·.realizedPnL) =
      some (p.realizedPnL + pos.unrealizedPnL) ∧
    (closePosition p pid).map (·.positions) =
      some (p.positions.filter (¬ ·.id = pid)) ∧
    (closePosition p pid).map (·.totalPnL) =
      some (p.realizedPnL + pos.unrealizedPnL + p.unrealizedPnL) ∧
    (closePosition p pid).map
        (fun q => q.realizedPnL + totalPositionsUPnL q.positions) =
      some (p.realizedPnL + totalPositionsUPnL p.positions) := by
  have key := totalPositionsUPnL_filter_split p.positions pid
  rw [huniq] at key
  have hone : totalPositionsUPnL [pos] = pos.unrealizedPnL := by
    simp [totalPositionsUPnL]
  rw [hone] at key
  simp only [closePosition, hfind]
  have h1 := methodCalculateExposure_fields
    (methodCalculateAllocation
      { p with
        realizedPnL := p.realizedPnL + pos.unrealizedPnL
        totalPnL := p.realizedPnL + pos.unrealizedPnL + p.unrealizedPnL
        positions := p.positions.filter (¬ ·.id = pid) })
  have h2 := methodCalculateAllocation_fields
    { p with
      realizedPnL := p.realizedPnL + pos.unrealizedPnL
      totalPnL := p.realizedPnL + pos.unrealizedPnL + p.unrealizedPnL
      positions := p.positions.filter (¬ ·.id = pid) }
  simp only [Option.map_some']
  refine ⟨?_, ?_, ?_, ?_⟩
  · rw [h1.1, h2.1]
  · rw [h1.2.2.2.1, h2.2.2.2.1]
  · rw [h1.2.2.1, h2.2.2.1]
  · rw [h1.1, h2.1, h1.2.2.2.1, h2.2.2.2.1]
    simp only [Option.some.injEq]
    rw [key]
    ring

/-- Instantiation of the amended C2 theorem at the one-position
portfolio. -/
theorem C2_close_moves_unrealized_into_realized_witness :
    pf1.positions.find? (·.id = 1) = some pos1 ∧
    pf1.positions.filter (·.id = 1) = [pos1] ∧
    ((closePosition pf1 1).map (·.realizedPnL) =
        some (pf1.realizedPnL + pos1.unrealizedPnL) ∧
      (closePosition pf1 1).map (·.positions) =
        some (pf1.positions.filter (¬ ·.id = 1)) ∧
      (closePosition pf1 1).map (·.totalPnL) =
        some (pf1.realizedPnL + pos1.unrealizedPnL + pf1.unrealizedPnL) ∧
      (closePosition pf1 1).map
          (fun q => q.realizedPnL + totalPositionsUPnL q.positions) =
        some (pf1.realizedPnL + totalPositionsUPnL pf1.positions)) :=
  ⟨rfl, rfl, C2_close_moves_unrealized_into_realized pf1 1 pos1 rfl rfl⟩

/-- C3 fails on the code: refreshing the portfolio that holds the short
position (entry `100`, quoted to `110` by the price map) stores an
unrealized PnL of `+10`, not the `-10` that "negated for short"
requires. -/
theorem C3_short_not_negated_counterexample :
    shortPos.side = .short ∧
    (updatePortfolioValue pfShort prices1).positions.map (·.unrealizedPnL) =
      [10] ∧
    (10 : ℚ) ≠ -((110 - 100) * 1 * 1) := by
  refine ⟨rfl, ?_, by norm_num⟩
  have hne : pfShort.positions ≠ [] := by simp [pfShort]
  simp only [updatePortfolioValue, if_neg hne]
  rw [(methodCalculateExposure_fields _).2.2.2.1,
    (methodCalculateAllocation_fields _).2.2.2.1]
  show (pfShort.positions.map (updatePosition prices1)).map (·.unrealizedPnL) = [10]
  have hcp : prices1 "BTC".toLower = some 110 := rfl

  simp only [pfShort, pf1, shortPos, pos1, List.map_cons, List.map_nil,
    updatePosition, hcp]
  norm_num

/-- C3 amended: during a valuation refresh every position's
`unrealizedPnL` is recomputed as
`(currentPrice - entryPrice) * size * leverage` REGARDLESS of `side`:
the quantity is not negated for `short`, and the long and short variants
of the same position receive identical unrealized PnL. -/
theorem C3_unrealizedPnL_ignores_side
    (p : Portfolio) (prices : String → Option ℚ) (pos : Position)
    (h : p.positions ≠ []) :
    (updatePortfolioValue p prices).positions =
      p.positions.map (updatePosition prices) ∧
    (updatePosition prices pos).unrealizedPnL =
      ((updatePosition prices pos).currentPrice - pos.entryPrice) *
        pos.size * pos.leverage ∧
    (updatePosition prices { pos with side := .long }).unrealizedPnL =
      (updatePosition prices { pos with side := .short }).unrealizedPnL := by
  refine ⟨?_, rfl, rfl⟩
  simp only [updatePortfolioValue, if_neg h]
  rw [(methodCalculateExposure_fields _).2.2.2.1,
    (methodCalculateAllocation_fields _).2.2.2.1]

/-- Instantiation of the amended C3 theorem at the short-position
portfolio. -/
theorem C3_unrealizedPnL_ignores_side_witness :
    pfShort.positions ≠ [] ∧
    ((updatePortfolioValue pfShort prices1).positions =
        pfShort.positions.map (updatePosition prices1) ∧
      (updatePosition prices1 shortPos).unrealizedPnL =
        ((updatePosition prices1 shortPos).currentPrice -
          shortPos.entryPrice) * shortPos.size * shortPos.leverage ∧
      (updatePosition prices1 { shortPos with side := .long }).unrealizedPnL =
        (updatePosition prices1 { shortPos with side := .short }).unrealizedPnL) :=
  ⟨by simp [pfShort], C3_unrealizedPnL_ignores_side pfShort prices1 shortPos
    (by simp [pfShort])⟩

/-- C8 fails on the code for the Mongoose method variant: on a
portfolio with no positions (total value `0`) and a stale allocation of
`50`% quick, the method returns early and leaves the stale `50` in
place instead of zeroing the map. -/
theorem C8_stale_allocation_counterexample :
    totalPositionsValue pfStale.positions = 0 ∧
    (methodCalculateAllocation pfStale).allocation = ⟨50, 0, 0, 0⟩ ∧
    (⟨50, 0, 0, 0⟩ : Allocation) ≠ Allocation.zero := by
  refine ⟨rfl, ?_, by simp [Allocation.zero]⟩
  have h : totalPositionsValue pfStale.positions = 0 := rfl
  simp only [methodCalculateAllocation, h, if_pos]
  rfl

/-- C8 amended: with a zero total value the service free functions
return all-zero allocation/exposure maps (no division happens), while
the Mongoose method variants skip the recompute entirely and leave the
portfolio — including any stale maps — unchanged. -/
theorem C8_zero_total_value
    (positions : List Position) (p : Portfolio)
    (h : totalPositionsValue p.positions = 0) :
    serviceCalculateAllocation positions 0 = Allocation.zero ∧
    serviceCalculateExposure positions 0 = Exposure.zero ∧
    methodCalculateAllocation p = p ∧
    methodCalculateExposure p = p := by
  refine ⟨?_, ?_, ?_, ?_⟩
  · simp [serviceCalculateAllocation]
  · simp [serviceCalculateExposure]
  · simp [methodCalculateAllocation, h]
  · simp [methodCalculateExposure, h]

/-- Instantiation of the amended C8 theorem at the stale-allocation
portfolio. -/
theorem C8_zero_total_value_witness :
    totalPositionsValue pfStale.positions = 0 ∧
    (serviceCalculateAllocation [] 0 = Allocation.zero ∧
      serviceCalculateExposure [] 0 = Exposure.zero ∧
      methodCalculateAllocation pfStale = pfStale ∧
      methodCalculateExposure pfStale = pfStale) :=
  ⟨rfl, C8_zero_total_value [] pfStale rfl⟩

/-- C4 fails on the code: the status handler updates a signal whose
current status is `executed` (non-active, terminal) to `cancelled`
without any `InvalidTransition` error, returning the mutated document. -/
theorem C4_status_update_counterexample :
    sig1.status = .executed ∧
    sig1.status ≠ .active ∧
    updateSignalStatus [sig1] "S1" .cancelled =
      .ok ({ sig1 with status := .cancelled },
        [{ sig1 with status := .cancelled }]) ∧
    ({ sig1 with status := .cancelled } : StoredSignal) ≠ sig1 := by
  refine ⟨rfl, by decide, rfl, by decide⟩

/-- C4 amended: the status handler checks only that the requested
status is one of the four enum values; for any existing signal,
whatever its current status, and any target status, the update succeeds
and overwrites the status with the target — there is no
`InvalidTransition` check, and a non-active signal is mutated whenever
the target differs from its current status. -/
theorem C4_status_update_unconditional
    (store : List StoredSignal) (id : String) (target : SignalStatus)
    (s : StoredSignal) (h : getSignal store id = some s) :
    updateSignalStatus store id target =
      .ok ({ s with status := target },
        updateFirst store id (fun t => { t with status := target })) ∧
    ({ s with status := target } : StoredSignal).status = target ∧
    (target ≠ s.status → ({ s with status := target } : StoredSignal) ≠ s) := by
  refine ⟨by simp [updateSignalStatus, h], rfl, ?_⟩
  intro hne heq
  exact hne (congrArg StoredSignal.status heq)

/-- Instantiation of the amended C4 theorem at the executed signal. -/
theorem C4_status_update_unconditional_witness :
    getSignal [sig1] "S1" = some sig1 ∧
    (updateSignalStatus [sig1] "S1" .cancelled =
        .ok ({ sig1 with status := .cancelled },
          updateFirst [sig1] "S1" (fun t => { t with status := .cancelled })) ∧
      ({ sig1 with status := .cancelled } : StoredSignal).status = .cancelled ∧
      (SignalStatus.cancelled ≠ sig1.status →
        ({ sig1 with status := .cancelled } : StoredSignal) ≠ sig1)) :=
  ⟨rfl, C4_status_update_unconditional [sig1] "S1" .cancelled sig1 rfl⟩

/-- C5 fails on the code: the TTL index hard-deletes the active signal
once `now > expiresAt`, so the record is no longer retrievable and no
document with status `expired` remains. -/
theorem C5_ttl_hard_delete_counterexample :
    sigA.status = .active ∧
    sigA.expiresAt < 10 ∧
    ttlSweep 10 [sigA] = [] ∧
    getSignal (ttlSweep 10 [sigA]) "S1" = none := by
  refine ⟨rfl, by decide, by decide, by decide⟩

/-- C5 amended: once `now > expiresAt`, the TTL monitor REMOVES the
signal document from the store (hard delete); the sweep only ever
deletes documents — every survivor was already in the store, with its
status untouched, and has not yet expired. No transition to status
`expired` takes place. -/
theorem C5_ttl_sweep_deletes_expired
    (store : List StoredSignal) (now : ℤ) (s t : StoredSignal)
    (hs : s ∈ store) (hexp : s.expiresAt < now)
    (ht : t ∈ ttlSweep now store) :
    s ∉ ttlSweep now store ∧
    (ttlSweep now store).Sublist store ∧
    t ∈ store ∧
    now ≤ t.expiresAt := by
  refine ⟨?_, List.filter_sublist store, ?_, ?_⟩
  · intro hmem
    rw [ttlSweep, List.mem_filter] at hmem
    simp only [decide_eq_true_eq] at hmem
    exact hmem.2 hexp
  · exact List.mem_of_mem_filter ht
  · rw [ttlSweep, List.mem_filter] at ht
    simp only [decide_eq_true_eq] at ht
    omega

/-- Instantiation of the amended C5 theorem at a two-signal store at
time `10`. -/
theorem C5_ttl_sweep_deletes_expired_witness :
    sigA ∈ [sigA, sigB] ∧
    sigA.expiresAt < 10 ∧
    sigB ∈ ttlSweep 10 [sigA, sigB] ∧
    (sigA ∉ ttlSweep 10 [sigA, sigB] ∧
      (ttlSweep 10 [sigA, sigB]).Sublist [sigA, sigB] ∧
      sigB ∈ [sigA, sigB] ∧
      (10 : ℤ) ≤ sigB.expiresAt) :=
  ⟨by simp, by decide, by decide,
    C5_ttl_sweep_deletes_expired [sigA, sigB] 10 sigA sigB (by simp)
      (by decide) (by decide)⟩

/-- C10: filling a pending trade at execution price `ep` computes
`pnl.unrealized = (ep - price) * size * leverage` and
`returnPercent = (ep - price) / price * 100` with no dependence on the
trade's side, so a sell filled above its requested price reports a
positive return. -/
theorem C10_fill_side_independent
    (t : Trade) (ep : ℚ) (h : t.status = .pending) (hep : ep ≠ 0) :
    (executeTrade t (some ep)).map (·.pnlUnrealized) =
      some ((ep - t.price) * t.size * t.leverage) ∧
    (executeTrade t (some ep)).map (·.returnPercent) =
      some ((ep - t.price) / t.price * 100) ∧
    (executeTrade { t with side := .sell } (some ep)).map
        (fun u => (u.pnlUnrealized, u.returnPercent)) =
      (executeTrade { t with side := .buy } (some ep)).map
        (fun u => (u.pnlUnrealized, u.returnPercent)) ∧
    (0 < t.price → t.price < ep → 0 < (ep - t.price) / t.price * 100) := by
  refine ⟨?_, ?_, ?_, ?_⟩
  · simp [executeTrade, h, hep]
  · simp [executeTrade, h, hep]
  · simp [executeTrade, h, hep]
  · intro hp hlt
    have h1 : 0 < (ep - t.price) / t.price := div_pos (by linarith) hp
    linarith

/-- Instantiation of the C10 theorem at the pending sell trade filled
at `110`. -/
theorem C10_fill_side_independent_witness :
    sellTrade.status = .pending ∧
    (110 : ℚ) ≠ 0 ∧
    ((executeTrade sellTrade (some 110)).map (·.pnlUnrealized) =
        some ((110 - sellTrade.price) * sellTrade.size * sellTrade.leverage) ∧
      (executeTrade sellTrade (some 110)).map (·.returnPercent) =
        some ((110 - sellTrade.price) / sellTrade.price * 100) ∧
      (executeTrade { sellTrade with side := .sell } (some 110)).map
          (fun u => (u.pnlUnrealized, u.returnPercent)) =
        (executeTrade { sellTrade with side := .buy } (some 110)).map
          (fun u => (u.pnlUnrealized, u.returnPercent)) ∧
      (0 < sellTrade.price → sellTrade.price < 110 →
        0 < (110 - sellTrade.price) / sellTrade.price * 100)) :=
  ⟨rfl, by norm_num, C10_fill_side_independent sellTrade 110 rfl (by norm_num)⟩

/-- C9: the Sharpe ratio is `0` on no trades; on any non-empty window
it equals
`(mean * 365 - 0.02 * 100) / (popStdDev * √365)` (in Lean the guarded
zero-deviation branch agrees with this formula because division by zero
is zero); and on a window whose trades all share one `returnPercent`
(a replicated list) it is `0`. -/
theorem C9_sharpe_ratio
    (returns : List ℚ) (n : ℕ) (c : ℚ)
    (hne : returns ≠ []) (hn : n ≠ 0) :
    calculateSharpeRatio [] = 0 ∧
    calculateSharpeRatio returns =
      ((meanReturn returns : ℝ) * 365 - 0.02 * 100) /
        (stdDevReturn returns * Real.sqrt 365) ∧
    calculateSharpeRatio (List.replicate n c) = 0 := by
  refine ⟨by simp [calculateSharpeRatio], ?_, ?_⟩
  · by_cases hsd : stdDevReturn returns = 0
    · rw [calculateSharpeRatio]
      simp [List.length_eq_zero, hne, hsd]
    · rw [calculateSharpeRatio]
      simp [List.length_eq_zero, hne, hsd]
  · have hm : meanReturn (List.replicate n c) = c := by
      rw [meanReturn, List.sum_replicate, List.length_replicate]
      have : ((n : ℚ)) ≠ 0 := Nat.cast_ne_zero.mpr hn
      field_simp
    have hv : varianceReturn (List.replicate n c) = 0 := by
      rw [varianceReturn, hm, List.map_replicate]
      simp
    have hsd : stdDevReturn (List.replicate n c) = 0 := by
      rw [stdDevReturn, hv]
      simp
    rw [calculateSharpeRatio]
    simp [List.length_eq_zero, hn, hsd]

/-- Instantiation of the C9 theorem at a two-trade window and a
three-trade constant window. -/
theorem C9_sharpe_ratio_witness :
    ([ (1 : ℚ), 2 ] ≠ []) ∧ (3 : ℕ) ≠ 0 ∧
    (calculateSharpeRatio [] = 0 ∧
      calculateSharpeRatio [(1 : ℚ), 2] =
        ((meanReturn [(1 : ℚ), 2] : ℝ) * 365 - 0.02 * 100) /
          (stdDevReturn [(1 : ℚ), 2] * Real.sqrt 365) ∧
      calculateSharpeRatio (List.replicate 3 (5 : ℚ)) = 0) :=
  ⟨by simp, by simp, C9_sharpe_ratio [(1 : ℚ), 2] 3 5 (by simp) (by simp)⟩

end CryptoPipeline
